import Mathlib

/-!
Verification of the OpenScribe capture pipeline (src-tauri/src/recorder.rs,
src-tauri/src/ocr.rs) against its natural-language specification.

The embedding is shallow: the capture thread's per-iteration body
(`start_listener`, thread 2) becomes the function `coordStep`, the encoder
thread's per-item body becomes `encodeStep`, and `OcrManager::process_job`
and `OcrManager::crop_around_point` become functions of the same names.
External collaborators (display lookup, accessibility lookup, screen capture,
the OCR engine, UUIDs, the clock) are passed in as an environment record.

Machine integers are modelled with Nat/Int plus explicit wrapping or checked
operations where Rust overflow semantics matter; `f64` values that carry
pixel coordinates and millisecond durations are modelled exactly over ℚ
(the source only compares and subtracts values far below the precision
boundary of `f64`).  Rust operations that can panic are modelled with
`Option`/`Except`, `none`/`.error` marking the panic.
-/

namespace OpenScribe

/-! ## Machine-integer helpers -/

/-- Lower bound of Rust `i32`, -2^31. -/
def I32_MIN : ℤ := -2147483648

/-- Upper bound of Rust `i32`, 2^31 - 1. -/
def I32_MAX : ℤ := 2147483647

/-- Rust `as u32` cast from a signed value: two's-complement wrap into
`[0, 2^32)`. -/
def asU32 (v : ℤ) : ℕ := (v % (4294967296 : ℤ)).toNat

/-- Rust `as i32` cast: two's-complement wrap into `[I32_MIN, I32_MAX]`. -/
def asI32 (v : ℤ) : ℤ := (v + 2147483648) % 4294967296 - 2147483648

/-- Rust `i32` arithmetic result under debug assertions: overflow panics
(modelled as `none`). -/
def checkedI32 (v : ℤ) : Option ℤ :=
  if I32_MIN ≤ v ∧ v ≤ I32_MAX then some v else none

/-- Rust `u32` subtraction under debug assertions: underflow panics
(modelled as `none`).  In release builds the same expression wraps; the
theorems note where the two differ. -/
def checkedSubU32 (a b : ℕ) : Option ℕ :=
  if b ≤ a then some (a - b) else none

/-- Rust `f64::round`: round half away from zero. -/
def rustRound (q : ℚ) : ℤ :=
  if 0 ≤ q then ⌊q + 1 / 2⌋ else -⌊-q + 1 / 2⌋

/-- Rust `f64 as i32` cast: saturating. -/
def satI32 (v : ℤ) : ℤ := max I32_MIN (min v I32_MAX)

/-! ## Locks

`std::sync::Mutex::lock` returns `Ok(guard)` or `Err(PoisonError)` when a
thread panicked while holding the lock.  `LockResult` models the returned
value together with its poison status; `lockUnwrap` models `.unwrap()` on
it, which panics (here: `.error`) on a poisoned lock. -/

inductive LockResult (α : Type) where
  | ok (val : α)
  | poisoned (val : α)
deriving DecidableEq

/-- Model of `.lock().unwrap()` as used at recorder.rs:492-493 and
recorder.rs:378: a poisoned lock makes `unwrap` panic, which is modelled as
`Except.error`. -/
def lockUnwrap {α : Type} : LockResult α → Except String α
  | .ok v => .ok v
  | .poisoned _ => .error "PoisonError"

/-! ## Shared small types -/

/-- Model of Rust `str::trim`: strip leading and trailing whitespace.
(Rust trims the Unicode White_Space set; the sources only ever buffer what
they themselves push, so the ASCII set of `Char.isWhitespace` is the
relevant fragment.) -/
def rust_trim (s : String) : String :=
  String.mk (((s.data.dropWhile Char.isWhitespace).reverse.dropWhile
    Char.isWhitespace).reverse)

/-- Model of Rust `str::to_lowercase` on the ASCII fragment the
"openscribe" test relies on. -/
def rust_to_lowercase (s : String) : String :=
  String.mk (s.data.map Char.toLower)

/-- Substring search: does the needle occur in the haystack? -/
def list_contains_sub (needle : List Char) : List Char → Bool
  | [] => needle.isEmpty
  | c :: rest => List.isPrefixOf needle (c :: rest) ||
      list_contains_sub needle rest

/-- Model of Rust `str::contains` with a string pattern. -/
def rust_str_contains (haystack needle : String) : Bool :=
  list_contains_sub needle.data haystack.data

/-- Model of Rust `String::pop`: drop the last character. -/
def rust_pop (s : String) : String :=
  String.mk s.data.dropLast

/-- Embedding of `is_openscribe_app` (recorder.rs:19-26): lowercase the
name and test for the substring "openscribe"; `None` is not OpenScribe. -/
def is_openscribe_app (app_name : Option String) : Bool :=
  match app_name with
  | some name => rust_str_contains (rust_to_lowercase name) "openscribe"
  | none => false

/-- Embedding of `accessibility::ElementInfo` (accessibility.rs:4-9). -/
structure ElementInfo where
  name : String
  element_type : String
  value : Option String
  app_name : Option String
deriving DecidableEq

/-- A captured bitmap.  Only the dimensions matter to the verified code;
pixel contents stay with the external capture collaborator. -/
structure Image where
  width : ℕ
  height : ℕ
deriving DecidableEq

/-- Embedding of `xcap::Monitor` as the coordinator uses it: origin
accessors `x()`/`y()` return a `Result`, modelled as `Option`; the code
reads them with `unwrap_or(0)`. -/
structure Monitor where
  x : Option ℤ
  y : Option ℤ
deriving DecidableEq

/-- Embedding of `RecorderEvent` keys the coordinator distinguishes
(recorder.rs:540-544); every other `rdev::Key` behaves like `Other`. -/
inductive RKey where
  | Return
  | Tab
  | Backspace
  | Delete
  | Space
  | Other
deriving DecidableEq

/-- Embedding of `RecorderEvent` (recorder.rs:90-100). -/
inductive RecorderEvent where
  | Click (x y : ℚ)
  | Key (key : RKey) (text : Option String)

/-- Embedding of `CaptureData` (recorder.rs:102-110), the request sent from
the capture thread to the encoder thread. -/
structure CaptureData where
  x : Option ℤ
  y : Option ℤ
  image : Image
  timestamp : ℕ
  step_type : String
  text : Option String
  element_info : Option ElementInfo
deriving DecidableEq

/-! ## Capture coordinator (recorder.rs thread 2, lines 478-690) -/

/-- The mutable locals of the capture loop (recorder.rs:479-482). Instants
are rational milliseconds. -/
structure CoordState where
  key_buffer : String
  last_key_time : Option ℚ
  last_click_time : Option ℚ
  last_click_pos : ℚ × ℚ
deriving DecidableEq

/-- One iteration's view of the external collaborators: the two clocks and
the platform lookup/capture functions called inside the loop body. -/
structure Env where
  now : ℚ
  wall : ℕ
  fg_app : Option String
  fg_monitor : Option Monitor
  monitor_at : ℚ → ℚ → Option Monitor
  element_at : ℚ → ℚ → Option ElementInfo
  capture : Monitor → Option Image

/-- `text_flush_timeout` (recorder.rs:484), in ms. -/
def text_flush_timeout : ℚ := 1500

/-- `click_debounce` (recorder.rs:485), in ms. -/
def click_debounce : ℚ := 150

/-- `click_distance_threshold` (recorder.rs:486), in px. -/
def click_distance_threshold : ℚ := 10

/-- The Type-step `CaptureData` all three flush sites build: no
coordinates, trimmed buffered text, no element info. -/
def flushTypeCapture (wall : ℕ) (img : Image) (txt : String) : CaptureData :=
  { x := none, y := none, image := img, timestamp := wall,
    step_type := "type", text := some txt, element_info := none }

/-- The click-debounce test (recorder.rs:601-612).  The source compares
`sqrt(dx^2 + dy^2) < 10.0`; over the nonnegative reals that is equivalent
to `dx^2 + dy^2 < 10^2`, which is the form used here (the equivalence is
proved in `sqrt_lt_ten_iff` below). -/
def clickDebounced (env : Env) (s : CoordState) (x y : ℚ) : Bool :=
  match s.last_click_time with
  | some last_time =>
      decide (env.now - last_time < click_debounce) &&
      decide ((x - s.last_click_pos.1) ^ 2 + (y - s.last_click_pos.2) ^ 2 <
        click_distance_threshold ^ 2)
  | none => false

/-- Embedding of the idle-flush check at the top of each loop iteration
(recorder.rs:500-531).  Returns the new state, the emitted capture
requests, and whether the iteration `continue`d (dropping the received
event) — which only the self-typing discard branch does. -/
def idleFlush (env : Env) (s : CoordState) :
    CoordState × List CaptureData × Bool :=
  match s.last_key_time with
  | some last_time =>
    if text_flush_timeout ≤ env.now - last_time ∧ ¬rust_trim s.key_buffer = "" then
      if is_openscribe_app env.fg_app then
        ({ s with key_buffer := "", last_key_time := none }, [], true)
      else
        match env.fg_monitor with
        | some mon =>
          match env.capture mon with
          | some img =>
            ({ s with key_buffer := "", last_key_time := none },
              [flushTypeCapture env.wall img (rust_trim s.key_buffer)], false)
          | none => (s, [], false)
        | none => (s, [], false)
    else (s, [], false)
  | none => (s, [], false)

/-- Embedding of the `RecorderEvent::Key` arm (recorder.rs:539-598):
backspace/delete pop, explicit space, single-byte text append (Rust
`str::len` counts UTF-8 bytes), then the Enter/Tab flush with its
self-typing discard. -/
def handleKey (env : Env) (s : CoordState) (key : RKey) (text : Option String) :
    CoordState × List CaptureData :=
  let s1 :=
    if key = RKey.Backspace ∧ ¬s.key_buffer = "" then
      { s with key_buffer := rust_pop s.key_buffer,
               last_key_time := some env.now }
    else if key = RKey.Delete ∧ ¬s.key_buffer = "" then
      { s with key_buffer := rust_pop s.key_buffer,
               last_key_time := some env.now }
    else if key = RKey.Space then
      { s with key_buffer := s.key_buffer.push ' ',
               last_key_time := some env.now }
    else
      match text with
      | some t =>
        if t.utf8ByteSize = 1 then
          { s with key_buffer := s.key_buffer ++ t,
                   last_key_time := some env.now }
        else s
      | none => s
  if (key = RKey.Return ∨ key = RKey.Tab) ∧ ¬rust_trim s1.key_buffer = "" then
    if is_openscribe_app env.fg_app then
      ({ s1 with key_buffer := "", last_key_time := none }, [])
    else
      match env.fg_monitor with
      | some mon =>
        match env.capture mon with
        | some img =>
          ({ s1 with key_buffer := "", last_key_time := none },
            [flushTypeCapture env.wall img (rust_trim s1.key_buffer)])
        | none => (s1, [])
      | none => (s1, [])
  else (s1, [])

/-- Embedding of the `RecorderEvent::Click` arm (recorder.rs:600-687):
debounce, debounce-memory update, element lookup, self-click suppression
(with pending-text flush), screenshot capture, text flush reusing the same
bitmap, and the click request with monitor-relative rounded coordinates. -/
def handleClick (env : Env) (s : CoordState) (x y : ℚ) :
    CoordState × List CaptureData :=
  if clickDebounced env s x y then (s, [])
  else
    let s1 := { s with last_click_time := some env.now,
                       last_click_pos := (x, y) }
    let element_info := env.element_at x y
    if is_openscribe_app (element_info.bind (fun e => e.app_name)) then
      if ¬rust_trim s1.key_buffer = "" then
        match env.fg_monitor with
        | some mon =>
          match env.capture mon with
          | some img =>
            ({ s1 with key_buffer := "", last_key_time := none },
              [flushTypeCapture env.wall img (rust_trim s1.key_buffer)])
          | none => (s1, [])
        | none => (s1, [])
      else (s1, [])
    else
      match env.monitor_at x y with
      | some mon =>
        match env.capture mon with
        | some img =>
          let flushed :=
            if ¬rust_trim s1.key_buffer = "" then
              ({ s1 with key_buffer := "", last_key_time := none },
                [flushTypeCapture env.wall img (rust_trim s1.key_buffer)])
            else (s1, ([] : List CaptureData))
          let rel_x := satI32 (rustRound (x - ((mon.x.getD 0 : ℤ) : ℚ)))
          let rel_y := satI32 (rustRound (y - ((mon.y.getD 0 : ℤ) : ℚ)))
          (flushed.1, flushed.2 ++
            [{ x := some rel_x, y := some rel_y, image := img,
               timestamp := env.wall, step_type := "click", text := none,
               element_info := element_info }])
        | none => (s1, [])
      | none => (s1, [])

/-- Embedding of one full iteration of the capture loop
(recorder.rs:488-689): read both flags with `.lock().unwrap()` (a poisoned
lock panics the thread, modelled as `.error`), drop state when not
recording or the picker is open, run the idle-flush check, then dispatch on
the received event (`none` models `recv_timeout` expiring). -/
def coordStep (recLock pickLock : LockResult Bool) (env : Env)
    (event : Option RecorderEvent) (s : CoordState) :
    Except String (CoordState × List CaptureData) :=
  match lockUnwrap recLock with
  | .error e => .error e
  | .ok recording =>
    match lockUnwrap pickLock with
    | .error e => .error e
    | .ok picker_open =>
      if ¬recording = true ∨ picker_open = true then
        .ok ({ s with key_buffer := "", last_key_time := none }, [])
      else
        let fl := idleFlush env s
        if fl.2.2 then .ok (fl.1, fl.2.1)
        else
          match event with
          | none => .ok (fl.1, fl.2.1)
          | some (RecorderEvent.Key key text) =>
            let r := handleKey env fl.1 key text
            .ok (r.1, fl.2.1 ++ r.2)
          | some (RecorderEvent.Click x y) =>
            let r := handleClick env fl.1 x y
            .ok (r.1, fl.2.1 ++ r.2)

/-! ## Encoder (recorder.rs thread 3, lines 397-473) -/

/-- Embedding of `Step` (recorder.rs:30-43). -/
structure Step where
  id : String
  type_ : String
  x : Option ℤ
  y : Option ℤ
  text : Option String
  timestamp : ℕ
  screenshot : Option String
  element_name : Option String
  element_type : Option String
  element_value : Option String
  app_name : Option String
deriving DecidableEq

/-- Embedding of `OcrData` (recorder.rs:112-119), forwarded from the
encoder to the OCR thread. -/
structure OcrData where
  step_id : String
  image : Image
  x : Option ℤ
  y : Option ℤ
  step_type : String
deriving DecidableEq

/-- One encoding's view of its external effects: the random UUID
(`Uuid::new_v4`), the filename counter (`SCREENSHOT_COUNTER.fetch_add`),
the temp directory, and the outcomes of `fs::File::create` and
`JpegEncoder::encode_image`. -/
structure EncodeEnv where
  step_id : String
  counter : ℕ
  temp_dir : String
  create_ok : Bool
  encode_ok : Bool

/-- Centre at which the encoder composites the click indicator
(recorder.rs:406-424): only for "click" requests that carry both
coordinates; the rings and the filled dot share this centre `(cx, cy)`. -/
def indicatorCenter (data : CaptureData) : Option (ℤ × ℤ) :=
  if data.step_type = "click" then
    match data.x, data.y with
    | some x, some y => some (x, y)
    | _, _ => none
  else none

/-- Temp filename `screenshot_{timestamp}_{counter}.jpg`
(recorder.rs:431). -/
def screenshotFilename (timestamp counter : ℕ) : String :=
  "screenshot_" ++ toString timestamp ++ "_" ++ toString counter ++ ".jpg"

/-- Embedding of one iteration of the encoder loop (recorder.rs:403-472):
composite the indicator (tracked by `indicatorCenter`), assign the step id,
attempt the JPEG write — a failed create or encode yields `screenshot :=
none` and nothing else — forward the shared bitmap to OCR, and emit the
Step. -/
def encodeStep (env : EncodeEnv) (data : CaptureData) : Step × OcrData :=
  let file_path := env.temp_dir ++ "/" ++
    screenshotFilename data.timestamp env.counter
  let screenshot_path :=
    if env.create_ok then
      if env.encode_ok then some file_path else none
    else none
  ({ id := env.step_id, type_ := data.step_type, x := data.x, y := data.y,
     text := data.text, timestamp := data.timestamp,
     screenshot := screenshot_path,
     element_name := data.element_info.map (fun e => e.name),
     element_type := data.element_info.map (fun e => e.element_type),
     element_value := data.element_info.bind (fun e => e.value),
     app_name := data.element_info.bind (fun e => e.app_name) },
   { step_id := env.step_id, image := data.image, x := data.x, y := data.y,
     step_type := data.step_type })

/-! ## OCR processor (ocr.rs) -/

/-- Embedding of `OcrConfig` (ocr.rs:14-20); confidences are exact
rationals (`0.5f32` is exactly `1/2`). -/
structure OcrConfig where
  crop_radius : ℕ
  min_confidence : ℚ

/-- Embedding of `OcrConfig::default` (ocr.rs:22-29). -/
def OcrConfig.default : OcrConfig :=
  { crop_radius := 300, min_confidence := mkRat 1 2 }

/-- Embedding of `OcrJob` (ocr.rs:31-39). -/
structure OcrJob where
  step_id : String
  image : Image
  x : Option ℤ
  y : Option ℤ
  step_type : String

/-- Embedding of `OcrJobResult` (ocr.rs:41-47). -/
structure OcrJobResult where
  step_id : String
  ocr_text : Option String
  status : String
deriving DecidableEq

/-- One recognition result returned by the external engine's
`run_from_image` (`{text, confidence, boundingBox}`; the box is unused by
this code). -/
structure OcrResultItem where
  text : String
  confidence : ℚ
deriving DecidableEq

/-- The crop rectangle handed to `image::DynamicImage::crop_imm`. -/
structure CropRect where
  x : ℕ
  y : ℕ
  width : ℕ
  height : ℕ
deriving DecidableEq

/-- Modelled from the `image` crate (an external collaborator):
`crop_imm` clamps the requested rectangle to the image bounds and never
panics. -/
def crop_imm_clamp (iw ih cx cy cw ch : ℕ) : CropRect :=
  let x := min cx iw
  let y := min cy ih
  { x := x, y := y, width := min cw (iw - x), height := min ch (ih - y) }

/-- Embedding of `OcrManager::crop_around_point` (ocr.rs:101-114).  The
`i32` additions and the two `u32` subtractions are checked (`none` models
the overflow panic of a debug build; a release build wraps instead, and
`crop_imm` then clamps the wrapped extents). -/
def crop_around_point (cfg : OcrConfig) (img : Image) (x y : ℤ) :
    Option CropRect :=
  let radius := asI32 (cfg.crop_radius : ℤ)
  let width := asI32 (img.width : ℤ)
  let height := asI32 (img.height : ℤ)
  match checkedI32 (x - radius), checkedI32 (x + radius),
      checkedI32 (y - radius), checkedI32 (y + radius) with
  | some xm, some xp, some ym, some yp =>
    let start_x := asU32 (max xm 0)
    let start_y := asU32 (max ym 0)
    let end_x := asU32 (min xp width)
    let end_y := asU32 (min yp height)
    match checkedSubU32 end_x start_x, checkedSubU32 end_y start_y with
    | some crop_width, some crop_height =>
      some (crop_imm_clamp img.width img.height start_x start_y
        crop_width crop_height)
    | _, _ => none
  | _, _, _, _ => none

/-- The confidence filter and newline concatenation of
`OcrManager::process_job` (ocr.rs:149-154): keep results whose confidence
is at least the threshold, in detection order, joined by `"\n"`. -/
def aggregate_text (min_confidence : ℚ) (results : List OcrResultItem) :
    String :=
  String.intercalate "\n"
    ((results.filter (fun r => min_confidence ≤ r.confidence)).map
      (fun r => r.text))

/-- The crop dispatch of `process_job` (ocr.rs:126-136): only "click"
jobs with both coordinates are cropped; the result records only whether
cropping panicked (`none`). -/
def crop_stage (cfg : OcrConfig) (job : OcrJob) : Option Unit :=
  if job.step_type = "click" then
    match job.x, job.y with
    | some x, some y => (crop_around_point cfg job.image x y).map
        (fun _ => ())
    | _, _ => some ()
  else some ()

/-- Embedding of `OcrManager::process_job` (ocr.rs:117-172).
`engine_enabled` is `self.engine.is_some()`; `run` is the outcome of the
external engine's `run_from_image` on the (possibly cropped) bitmap.  The
outer `Option` marks a panic inside `crop_around_point`. -/
def process_job (engine_enabled : Bool) (cfg : OcrConfig) (job : OcrJob)
    (run : Except String (List OcrResultItem)) : Option OcrJobResult :=
  if ¬engine_enabled = true then
    some { step_id := job.step_id, ocr_text := none, status := "failed" }
  else
    match crop_stage cfg job with
    | none => none
    | some _ =>
      match run with
      | .ok results =>
        if results.isEmpty then
          some { step_id := job.step_id, ocr_text := none,
                 status := "completed" }
        else
          let text := aggregate_text cfg.min_confidence results
          some { step_id := job.step_id,
                 ocr_text := if text = "" then none else some text,
                 status := "completed" }
      | .error _ =>
        some { step_id := job.step_id, ocr_text := none, status := "failed" }

/-! ## Support lemmas -/

/-- Bridge between the source's `sqrt(d) < 10.0` and the model's squared
comparison: over the reals they agree for every rational `d`. -/
theorem sqrt_lt_ten_iff (q : ℚ) : Real.sqrt (q : ℝ) < 10 ↔ q < 100 := by
  rw [Real.sqrt_lt' (by norm_num : (0 : ℝ) < 10)]
  norm_cast

/-- The debounce test, phrased with the source's Euclidean-distance
comparison, when a previous accepted click exists. -/
theorem clickDebounced_iff (env : Env) (s : CoordState) (x y lt : ℚ)
    (h : s.last_click_time = some lt) :
    clickDebounced env s x y = true ↔
      (env.now - lt < 150 ∧
        Real.sqrt (((x - s.last_click_pos.1) ^ 2 +
          (y - s.last_click_pos.2) ^ 2 : ℚ) : ℝ) < 10) := by
  rw [clickDebounced, h]
  rw [sqrt_lt_ten_iff]
  simp [click_debounce, click_distance_threshold]
  norm_num

/-- A debounced click is dropped with no state change and no output. -/
theorem handleClick_dropped (env : Env) (s : CoordState) (x y : ℚ)
    (h : clickDebounced env s x y = true) :
    handleClick env s x y = (s, []) := by
  simp [handleClick, h]

/-- An accepted click always updates the debounce memory to the current
instant and position, whatever the element, monitor and capture lookups
return. -/
theorem handleClick_accepted (env : Env) (s : CoordState) (x y : ℚ)
    (h : clickDebounced env s x y = false) :
    (handleClick env s x y).1.last_click_time = some env.now ∧
      (handleClick env s x y).1.last_click_pos = (x, y) := by
  rw [handleClick, h]
  simp only [Bool.false_eq_true, if_false]
  split
  · split
    · split
      · split <;> simp
      · simp
    · simp
  · split
    · split
      · split <;> simp
      · simp
    · simp

/-- With no pending key instant the idle-flush check does nothing. -/
theorem idleFlush_none (env : Env) (s : CoordState)
    (h : s.last_key_time = none) : idleFlush env s = (s, [], false) := by
  simp [idleFlush, h]

/-- Reduction of an armed iteration (recording, picker closed, no pending
key instant) on a click event to the click arm. -/
theorem coordStep_armed_click (env : Env) (s : CoordState) (x y : ℚ)
    (h : s.last_key_time = none) :
    coordStep (.ok true) (.ok false) env (some (.Click x y)) s =
      .ok ((handleClick env s x y).1, (handleClick env s x y).2) := by
  simp [coordStep, lockUnwrap, idleFlush_none env s h]

/-- Reduction of an armed iteration (recording, picker closed, no pending
key instant) on a key event to the key arm. -/
theorem coordStep_armed_key (env : Env) (s : CoordState) (key : RKey)
    (text : Option String) (h : s.last_key_time = none) :
    coordStep (.ok true) (.ok false) env (some (.Key key text)) s =
      .ok ((handleKey env s key text).1, (handleKey env s key text).2) := by
  simp [coordStep, lockUnwrap, idleFlush_none env s h]

/-! ## Claims -/

/-- C1: while recording, a click following an accepted click is dropped —
no state change, no emission — exactly when less than 150 ms elapsed since
the last accepted click AND its Euclidean distance from that click is
below 10 px; otherwise it is accepted and the debounce memory (last
accepted click instant and position) is updated to this click.  The
memory is left untouched by dropped clicks. -/
theorem click_debounce_classification
    (env : Env) (s : CoordState) (x y lt : ℚ)
    (hlast : s.last_click_time = some lt)
    (hkt : s.last_key_time = none) :
    (env.now - lt < 150 ∧
        Real.sqrt (((x - s.last_click_pos.1) ^ 2 +
          (y - s.last_click_pos.2) ^ 2 : ℚ) : ℝ) < 10 →
      coordStep (.ok true) (.ok false) env
        (some (.Click x y)) s = .ok (s, [])) ∧
    (¬(env.now - lt < 150 ∧
        Real.sqrt (((x - s.last_click_pos.1) ^ 2 +
          (y - s.last_click_pos.2) ^ 2 : ℚ) : ℝ) < 10) →
      ∀ s' out, coordStep (.ok true) (.ok false) env
          (some (.Click x y)) s = .ok (s', out) →
        s'.last_click_time = some env.now ∧ s'.last_click_pos = (x, y)) := by
  constructor
  · intro hc
    rw [coordStep_armed_click env s x y hkt,
      handleClick_dropped env s x y
        ((clickDebounced_iff env s x y lt hlast).2 hc)]
  · intro hc s' out heq
    have hf : clickDebounced env s x y = false := by
      rcases Bool.eq_false_or_eq_true (clickDebounced env s x y) with h | h
      · exact absurd ((clickDebounced_iff env s x y lt hlast).1 h) hc
      · exact h
    rw [coordStep_armed_click env s x y hkt] at heq
    obtain ⟨hs, -⟩ := Prod.mk.injEq .. ▸ (Except.ok.injEq .. ▸ heq)
    cases hs
    exact handleClick_accepted env s x y hf

/-- Witness for C1: a click at the same position 100 ms after an accepted
click is dropped without touching the state. -/
theorem click_debounce_classification_witness :
    coordStep (.ok true) (.ok false)
      { now := 1000, wall := 5000, fg_app := none, fg_monitor := none,
        monitor_at := fun _ _ => none, element_at := fun _ _ => none,
        capture := fun _ => none }
      (some (.Click 0 0)) ⟨"", none, some 900, (0, 0)⟩ =
      .ok (⟨"", none, some 900, (0, 0)⟩, []) :=
  (click_debounce_classification _ ⟨"", none, some 900, (0, 0)⟩ 0 0 900
    rfl rfl).1 ⟨by norm_num, by norm_num⟩

/-- When a click resolves to an element owned by the recorder itself, the
click arm only ever emits Type requests, never a Click request. -/
theorem handleClick_self_only_type (env : Env) (s : CoordState) (x y : ℚ)
    (e : ElementInfo) (helem : env.element_at x y = some e)
    (hself : is_openscribe_app e.app_name = true) :
    ∀ c ∈ (handleClick env s x y).2, c.step_type = "type" := by
  intro c hc
  simp only [handleClick, helem, Option.some_bind, hself, if_true] at hc
  split at hc
  · simp at hc
  · split at hc
    · split at hc
      · split at hc
        · simp at hc
          rw [hc]
          rfl
        · simp at hc
      · simp at hc
    · simp at hc

/-- C2: a click whose resolved UI element belongs to OpenScribe itself
never yields a Click capture request; if the text buffer held
non-whitespace text at that moment (and the foreground display resolves
and captures), exactly one Type request for the trimmed buffered text is
emitted and the buffer is cleared. -/
theorem self_click_suppression
    (env : Env) (s : CoordState) (x y : ℚ) (e : ElementInfo)
    (hkt : s.last_key_time = none)
    (hlast : s.last_click_time = none)
    (helem : env.element_at x y = some e)
    (hself : is_openscribe_app e.app_name = true) :
    (∀ s' out, coordStep (.ok true) (.ok false) env
        (some (.Click x y)) s = .ok (s', out) →
      ∀ c ∈ out, c.step_type = "type") ∧
    (¬rust_trim s.key_buffer = "" →
      ∀ mon img, env.fg_monitor = some mon → env.capture mon = some img →
        coordStep (.ok true) (.ok false) env (some (.Click x y)) s =
          .ok ({ key_buffer := "", last_key_time := none,
                 last_click_time := some env.now,
                 last_click_pos := (x, y) },
            [flushTypeCapture env.wall img (rust_trim s.key_buffer)])) := by
  have hdeb : clickDebounced env s x y = false := by
    simp [clickDebounced, hlast]
  constructor
  · intro s' out heq c hc
    rw [coordStep_armed_click env s x y hkt] at heq
    obtain ⟨-, ho⟩ := Prod.mk.injEq .. ▸ (Except.ok.injEq .. ▸ heq)
    exact handleClick_self_only_type env s x y e helem hself c (ho ▸ hc)
  · intro htrim mon img hmon hcap
    rw [coordStep_armed_click env s x y hkt]
    simp [handleClick, hdeb, helem, hself, hmon, hcap, htrim]

/-- Witness for C2: with "hello" buffered, a click on an OpenScribe-owned
element yields exactly one Type request carrying "hello" and no Click
request. -/
theorem self_click_suppression_witness :
    coordStep (.ok true) (.ok false)
      { now := 1000, wall := 5000, fg_app := none,
        fg_monitor := some ⟨some 0, some 0⟩,
        monitor_at := fun _ _ => none,
        element_at := fun _ _ =>
          some ⟨"btn", "button", none, some "OpenScribe - Recorder"⟩,
        capture := fun _ => some ⟨800, 600⟩ }
      (some (.Click 10 10)) ⟨"hello", none, none, (0, 0)⟩ =
      .ok (⟨"", none, some 1000, (10, 10)⟩,
        [flushTypeCapture 5000 ⟨800, 600⟩ "hello"]) :=
  (self_click_suppression _ ⟨"hello", none, none, (0, 0)⟩ 10 10
    ⟨"btn", "button", none, some "OpenScribe - Recorder"⟩
    rfl rfl rfl (by decide)).2 (by decide) ⟨some 0, some 0⟩ ⟨800, 600⟩
    rfl rfl

/-- C3 counterexample: the capture thread reads the recording flag with
`.lock().unwrap()` (recorder.rs:492), so a poisoned lock is not recovered —
the panic propagates into the capture pipeline and the iteration produces
an error instead of continuing. -/
theorem poisoned_lock_panics_cex :
    coordStep (.poisoned true) (.ok false)
      { now := 1000, wall := 5000, fg_app := none, fg_monitor := none,
        monitor_at := fun _ _ => none, element_at := fun _ _ => none,
        capture := fun _ => none }
      none ⟨"", none, none, (0, 0)⟩ = .error "PoisonError" := rfl

/-- C3 amended: a poisoned recording-armed or picker-open lock makes the
capture thread's flag read panic (`unwrap` on the poisoned `lock()`
result); the panic is propagated, not recovered — poison recovery exists
only in the command layer's `safe_mutex_set` writer (lib.rs:885-896), not
on these reads. -/
theorem poisoned_lock_propagates (pickLock : LockResult Bool) (env : Env)
    (event : Option RecorderEvent) (s : CoordState) (v : Bool) :
    coordStep (.poisoned v) pickLock env event s = .error "PoisonError" ∧
    ∀ r : Bool, coordStep (.ok r) (.poisoned v) env event s =
      .error "PoisonError" := by
  exact ⟨rfl, fun r => rfl⟩

/-- C4 counterexample: the not-recording branch (recorder.rs:494-498)
clears only the text buffer and pending key instant; the debounce memory
(`last_click_time = 1000`, position `(5, 5)`) survives the idle iteration,
and a click at `(5, 5)` at instant 1100 after re-arming is debounced by
the stale pre-transition memory — the claim's reset does not happen. -/
theorem idle_transition_keeps_debounce_cex :
    (coordStep (.ok false) (.ok false)
      { now := 1050, wall := 5000, fg_app := none, fg_monitor := none,
        monitor_at := fun _ _ => none, element_at := fun _ _ => none,
        capture := fun _ => none }
      none ⟨"abc", some 100, some 1000, (5, 5)⟩ =
      .ok (⟨"", none, some 1000, (5, 5)⟩, [])) ∧
    (coordStep (.ok true) (.ok false)
      { now := 1100, wall := 5000, fg_app := none, fg_monitor := none,
        monitor_at := fun _ _ => none, element_at := fun _ _ => none,
        capture := fun _ => none }
      (some (.Click 5 5)) ⟨"", none, some 1000, (5, 5)⟩ =
      .ok (⟨"", none, some 1000, (5, 5)⟩, [])) := by
  constructor
  · rfl
  · have h : clickDebounced
        { now := 1100, wall := 5000, fg_app := none, fg_monitor := none,
          monitor_at := fun _ _ => none, element_at := fun _ _ => none,
          capture := fun _ => none }
        ⟨"", none, some 1000, (5, 5)⟩ 5 5 = true := by
      simp only [clickDebounced, click_debounce, click_distance_threshold,
        Bool.and_eq_true, decide_eq_true_eq]
      norm_num
    rw [coordStep_armed_click _ _ 5 5 rfl, handleClick_dropped _ _ 5 5 h]

/-- C4 amended: on an iteration where recording is off or the picker is
open, the text buffer is discarded without emission and the pending key
instant is cleared, but the click-debounce memory is left untouched (so a
pre-transition click can still debounce a click after re-arming). -/
theorem idle_transition_discards_buffer (env : Env)
    (event : Option RecorderEvent) (s : CoordState) :
    (∀ p : Bool, coordStep (.ok false) (.ok p) env event s =
      .ok ({ s with key_buffer := "", last_key_time := none }, [])) ∧
    (∀ r : Bool, coordStep (.ok r) (.ok true) env event s =
      .ok ({ s with key_buffer := "", last_key_time := none }, [])) := by
  constructor
  · intro p
    rfl
  · intro r
    cases r <;> rfl

/-- C9 counterexample: "é" is printable single-character text, but its
UTF-8 length is 2 bytes, so the `t.len() == 1` test (recorder.rs:562)
rejects it: the buffer stays empty and the idle instant is not set,
contradicting the claim that any single character is appended. -/
theorem multibyte_append_cex :
    coordStep (.ok true) (.ok false)
      { now := 1000, wall := 5000, fg_app := none, fg_monitor := none,
        monitor_at := fun _ _ => none, element_at := fun _ _ => none,
        capture := fun _ => none }
      (some (.Key .Other (some "é"))) ⟨"", none, none, (0, 0)⟩ =
      .ok (⟨"", none, none, (0, 0)⟩, []) := rfl

/-- C9 amended: a key event carrying printable text appends it to the
buffer and resets the idle instant exactly when the text is a single
UTF-8 byte (`t.len() == 1` counts bytes); single characters wider than
one byte are dropped. -/
theorem single_byte_append (env : Env) (s : CoordState) (t : String)
    (hkt : s.last_key_time = none) (hlen : t.utf8ByteSize = 1) :
    coordStep (.ok true) (.ok false) env (some (.Key .Other (some t))) s =
      .ok ({ s with key_buffer := s.key_buffer ++ t,
                    last_key_time := some env.now }, []) := by
  rw [coordStep_armed_key env s .Other (some t) hkt]
  simp [handleKey, hlen]

/-- Witness for C9 (amended): "a" (one byte) is appended and the idle
instant is set. -/
theorem single_byte_append_witness :
    coordStep (.ok true) (.ok false)
      { now := 1000, wall := 5000, fg_app := none, fg_monitor := none,
        monitor_at := fun _ _ => none, element_at := fun _ _ => none,
        capture := fun _ => none }
      (some (.Key .Other (some "a"))) ⟨"", none, none, (0, 0)⟩ =
      .ok (⟨"a", some 1000, none, (0, 0)⟩, []) :=
  single_byte_append _ ⟨"", none, none, (0, 0)⟩ "a" rfl rfl

/-- C10: when the foreground application resolves to OpenScribe itself
and the buffer holds non-whitespace text, both flush triggers — Enter/Tab
(recorder.rs:569-577) and the idle timeout (recorder.rs:501-509) — clear
the buffer and pending instant without emitting any capture request. -/
theorem self_typing_discard (env : Env) (s : CoordState)
    (hfg : is_openscribe_app env.fg_app = true)
    (htrim : ¬rust_trim s.key_buffer = "") :
    (∀ key : RKey, key = .Return ∨ key = .Tab → s.last_key_time = none →
      coordStep (.ok true) (.ok false) env (some (.Key key none)) s =
        .ok ({ s with key_buffer := "", last_key_time := none }, [])) ∧
    (∀ t : ℚ, s.last_key_time = some t → 1500 ≤ env.now - t →
      coordStep (.ok true) (.ok false) env none s =
        .ok ({ s with key_buffer := "", last_key_time := none }, [])) := by
  constructor
  · intro key hkey hkt
    rw [coordStep_armed_key env s key none hkt]
    rcases hkey with h | h <;> subst h <;> simp [handleKey, htrim, hfg]
  · intro t hkt hto
    simp [coordStep, lockUnwrap, idleFlush, hkt, hto, htrim, hfg,
      text_flush_timeout]

/-- Witness for C10: with "submit" buffered and OpenScribe in the
foreground, Enter discards the buffer silently, and so does an idle tick
1900 ms after the last keystroke. -/
theorem self_typing_discard_witness :
    (coordStep (.ok true) (.ok false)
      { now := 1000, wall := 5000, fg_app := some "OpenScribe",
        fg_monitor := none, monitor_at := fun _ _ => none,
        element_at := fun _ _ => none, capture := fun _ => none }
      (some (.Key .Return none)) ⟨"submit", none, none, (0, 0)⟩ =
      .ok (⟨"", none, none, (0, 0)⟩, [])) ∧
    (coordStep (.ok true) (.ok false)
      { now := 2000, wall := 5000, fg_app := some "OpenScribe",
        fg_monitor := none, monitor_at := fun _ _ => none,
        element_at := fun _ _ => none, capture := fun _ => none }
      none ⟨"submit", some 100, none, (0, 0)⟩ =
      .ok (⟨"", none, none, (0, 0)⟩, [])) :=
  ⟨(self_typing_discard _ ⟨"submit", none, none, (0, 0)⟩
      (by decide) (by decide)).1 .Return (Or.inl rfl) rfl,
   (self_typing_discard _ ⟨"submit", some 100, none, (0, 0)⟩
      (by decide) (by decide)).2 100 rfl (by norm_num)⟩

/-- Rounding half away from zero is exact on integral values. -/
theorem rustRound_intCast (n : ℤ) : rustRound (n : ℚ) = n := by
  unfold rustRound
  split
  · rw [Int.floor_int_add]
    norm_num
  · have h : -((n : ℤ) : ℚ) = ((-n : ℤ) : ℚ) := by push_cast; ring
    rw [h, Int.floor_int_add]
    norm_num

/-- The saturating `f64 as i32` cast is the identity inside range. -/
theorem satI32_eq (v : ℤ) (h1 : I32_MIN ≤ v) (h2 : v ≤ I32_MAX) :
    satI32 v = v := by
  unfold satI32 I32_MIN I32_MAX at *
  omega

/-- C5: an accepted click at integer point `(xi, yi)` on a monitor whose
origin is `(ox, oy)` emits one Click capture request carrying
bitmap-relative coordinates `(xi - ox, yi - oy)`, and the encoder's
indicator is composited at exactly those coordinates. -/
theorem click_relative_coordinates (env : Env) (s : CoordState)
    (xi yi ox oy : ℤ) (mon : Monitor) (img : Image)
    (hkt : s.last_key_time = none) (hlast : s.last_click_time = none)
    (hbuf : rust_trim s.key_buffer = "")
    (hnotself : is_openscribe_app
      ((env.element_at (xi : ℚ) (yi : ℚ)).bind (fun e => e.app_name)) =
        false)
    (hmon : env.monitor_at (xi : ℚ) (yi : ℚ) = some mon)
    (hox : mon.x = some ox) (hoy : mon.y = some oy)
    (hcap : env.capture mon = some img)
    (hrx1 : I32_MIN ≤ xi - ox) (hrx2 : xi - ox ≤ I32_MAX)
    (hry1 : I32_MIN ≤ yi - oy) (hry2 : yi - oy ≤ I32_MAX) :
    coordStep (.ok true) (.ok false) env
        (some (.Click (xi : ℚ) (yi : ℚ))) s =
      .ok ({ s with last_click_time := some env.now,
                    last_click_pos := ((xi : ℚ), (yi : ℚ)) },
        [{ x := some (xi - ox), y := some (yi - oy), image := img,
           timestamp := env.wall, step_type := "click", text := none,
           element_info := env.element_at (xi : ℚ) (yi : ℚ) }]) ∧
    indicatorCenter
        { x := some (xi - ox), y := some (yi - oy), image := img,
          timestamp := env.wall, step_type := "click", text := none,
          element_info := env.element_at (xi : ℚ) (yi : ℚ) } =
      some (xi - ox, yi - oy) := by
  have hdeb : clickDebounced env s (xi : ℚ) (yi : ℚ) = false := by
    simp [clickDebounced, hlast]
  have hcx : (xi : ℚ) - ((ox : ℤ) : ℚ) = ((xi - ox : ℤ) : ℚ) := by
    push_cast; ring
  have hcy : (yi : ℚ) - ((oy : ℤ) : ℚ) = ((yi - oy : ℤ) : ℚ) := by
    push_cast; ring
  constructor
  · rw [coordStep_armed_click env s _ _ hkt]
    simp only [handleClick, hdeb, Bool.false_eq_true, if_false, hnotself,
      hmon, hcap, hbuf, hox, hoy, Option.getD_some, hcx, hcy,
      rustRound_intCast, satI32_eq _ hrx1 hrx2, satI32_eq _ hry1 hry2]
    simp
  · simp [indicatorCenter]

/-- Witness for C5: the spec's example — a click at `(150, 60)` on a
display with origin `(100, 0)` yields coordinates `(50, 60)` in the
emitted request and in the indicator centre. -/
theorem click_relative_coordinates_witness :
    coordStep (.ok true) (.ok false)
      { now := 1000, wall := 5000, fg_app := none, fg_monitor := none,
        monitor_at := fun _ _ => some ⟨some 100, some 0⟩,
        element_at := fun _ _ => none,
        capture := fun _ => some ⟨1920, 1080⟩ }
      (some (.Click ((150 : ℤ) : ℚ) ((60 : ℤ) : ℚ)))
      ⟨"", none, none, (0, 0)⟩ =
      .ok (⟨"", none, some 1000, (((150 : ℤ) : ℚ), ((60 : ℤ) : ℚ))⟩,
        [{ x := some 50, y := some 60, image := ⟨1920, 1080⟩,
           timestamp := 5000, step_type := "click", text := none,
           element_info := none }]) ∧
    indicatorCenter
        { x := some 50, y := some 60, image := ⟨1920, 1080⟩,
          timestamp := 5000, step_type := "click", text := none,
          element_info := none } = some (50, 60) :=
  click_relative_coordinates _ ⟨"", none, none, (0, 0)⟩ 150 60 100 0
    ⟨some 100, some 0⟩ ⟨1920, 1080⟩ rfl rfl rfl rfl rfl rfl rfl rfl
    (by norm_num [I32_MIN]) (by norm_num [I32_MAX])
    (by norm_num [I32_MIN]) (by norm_num [I32_MAX])

/-- C6: the encoder emits exactly one Step per capture request with every
metadata field copied from the request; when creating or encoding the
screenshot file fails, the Step still goes out, only with an absent
screenshot path. -/
theorem encoder_write_failure_degrades (env : EncodeEnv)
    (data : CaptureData)
    (hfail : env.create_ok = false ∨ env.encode_ok = false) :
    (encodeStep env data).1 =
      { id := env.step_id, type_ := data.step_type, x := data.x,
        y := data.y, text := data.text, timestamp := data.timestamp,
        screenshot := none,
        element_name := data.element_info.map (fun e => e.name),
        element_type := data.element_info.map (fun e => e.element_type),
        element_value := data.element_info.bind (fun e => e.value),
        app_name := data.element_info.bind (fun e => e.app_name) } := by
  rcases hfail with h | h <;> simp [encodeStep, h]

/-- Witness for C6: a failed file create still yields a full Step with an
absent screenshot path. -/
theorem encoder_write_failure_degrades_witness :
    (encodeStep ⟨"uid", 3, "/tmp/openscribe_screenshots", false, true⟩
      ⟨some 50, some 60, ⟨1920, 1080⟩, 5000, "click", none, none⟩).1 =
      { id := "uid", type_ := "click", x := some 50, y := some 60,
        text := none, timestamp := 5000, screenshot := none,
        element_name := none, element_type := none, element_value := none,
        app_name := none } :=
  encoder_write_failure_degrades
    ⟨"uid", 3, "/tmp/openscribe_screenshots", false, true⟩
    ⟨some 50, some 60, ⟨1920, 1080⟩, 5000, "click", none, none⟩
    (Or.inl rfl)

/-- C7: with an enabled engine and a successful recognition run, the
emitted result is "completed" for the job's step id; recognitions under
the confidence threshold are discarded, the survivors' texts are joined
in detection order separated by newlines, and when nothing survives the
filter the text value is absent.  The default threshold is 1/2 = 0.5. -/
theorem ocr_filter_and_concat (cfg : OcrConfig) (job : OcrJob)
    (results : List OcrResultItem) (r : OcrJobResult)
    (hrun : process_job true cfg job (.ok results) = some r) :
    r.step_id = job.step_id ∧ r.status = "completed" ∧
    aggregate_text cfg.min_confidence results =
      String.intercalate "\n"
        ((results.filter (fun t => cfg.min_confidence ≤ t.confidence)).map
          (fun t => t.text)) ∧
    r.ocr_text = (if aggregate_text cfg.min_confidence results = ""
      then none else some (aggregate_text cfg.min_confidence results)) ∧
    (results.filter (fun t => cfg.min_confidence ≤ t.confidence) = [] →
      r.ocr_text = none) ∧
    OcrConfig.default.min_confidence = mkRat 1 2 := by
  rw [process_job] at hrun
  simp only [not_true_eq_false, if_false] at hrun
  cases hc : crop_stage cfg job with
  | none => rw [hc] at hrun; cases hrun
  | some u =>
    rw [hc] at hrun
    by_cases he : results.isEmpty = true
    · rw [if_pos he] at hrun
      rw [List.isEmpty_iff] at he
      cases hrun
      subst he
      refine ⟨rfl, rfl, rfl, ?_, fun _ => rfl, rfl⟩
      rfl
    · rw [if_neg he] at hrun
      cases hrun
      refine ⟨rfl, rfl, rfl, rfl, ?_, rfl⟩
      intro hfilter
      have hagg : aggregate_text cfg.min_confidence results = "" := by
        rw [aggregate_text, hfilter]
        rfl
      simp [hagg]

/-- Witness for C7: of three results with confidences 3/4, 1/4 and 1/2
against the default threshold 1/2, the first and third survive and the
text is "hi\nyo". -/
theorem ocr_filter_and_concat_witness :
    ("id1" : String) = "id1" ∧ ("completed" : String) = "completed" ∧
    aggregate_text OcrConfig.default.min_confidence
        [⟨"hi", mkRat 3 4⟩, ⟨"lo", mkRat 1 4⟩, ⟨"yo", mkRat 1 2⟩] =
      String.intercalate "\n"
        (([⟨"hi", mkRat 3 4⟩, ⟨"lo", mkRat 1 4⟩,
            (⟨"yo", mkRat 1 2⟩ : OcrResultItem)].filter
          (fun t => OcrConfig.default.min_confidence ≤ t.confidence)).map
            (fun t => t.text)) ∧
    (some "hi\nyo" : Option String) =
      (if aggregate_text OcrConfig.default.min_confidence
          [⟨"hi", mkRat 3 4⟩, ⟨"lo", mkRat 1 4⟩, ⟨"yo", mkRat 1 2⟩] = ""
        then none
        else some (aggregate_text OcrConfig.default.min_confidence
          [⟨"hi", mkRat 3 4⟩, ⟨"lo", mkRat 1 4⟩, ⟨"yo", mkRat 1 2⟩])) ∧
    ([⟨"hi", mkRat 3 4⟩, ⟨"lo", mkRat 1 4⟩,
        (⟨"yo", mkRat 1 2⟩ : OcrResultItem)].filter
      (fun t => OcrConfig.default.min_confidence ≤ t.confidence) = [] →
      (some "hi\nyo" : Option String) = none) ∧
    OcrConfig.default.min_confidence = mkRat 1 2 :=
  ocr_filter_and_concat OcrConfig.default
    ⟨"id1", ⟨800, 600⟩, none, none, "type"⟩
    [⟨"hi", mkRat 3 4⟩, ⟨"lo", mkRat 1 4⟩, ⟨"yo", mkRat 1 2⟩]
    ⟨"id1", some "hi\nyo", "completed"⟩ rfl


/-- The `as i32` wrap is the identity inside range. -/
theorem asI32_eq (v : ℤ) (h1 : I32_MIN ≤ v) (h2 : v ≤ I32_MAX) :
    asI32 v = v := by
  simp only [I32_MIN] at h1
  simp only [I32_MAX] at h2
  unfold asI32
  omega

/-- The `as u32` wrap is `toNat` on values already in `u32` range. -/
theorem asU32_eq (v : ℤ) (h1 : 0 ≤ v) (h2 : v < 4294967296) :
    asU32 v = v.toNat := by
  unfold asU32
  rw [Int.emod_eq_of_lt h1 h2]

/-- C8 counterexample: on a 100×100 bitmap, a click job at `(401, 50)` —
an integer coordinate more than the radius beyond the right edge — makes
`end_x < start_x`, so the `u32` crop-width subtraction (ocr.rs:110)
underflows: the model's `none` marks the debug-build panic (a release
build wraps, and `crop_imm` then clamps the huge extent to an empty crop,
which is not the claimed radius square either).  This refutes "never
fails or panics for any integer coordinates". -/
theorem crop_underflow_cex :
    crop_around_point OcrConfig.default ⟨100, 100⟩ 401 50 = none := by
  decide

set_option maxRecDepth 4000 in
/-- C8 amended: cropping yields the fixed-radius square clamped to the
image bounds, staying inside them, provided the centre lies at most one
radius outside the image (`-r ≤ x ≤ width + r` and `-r ≤ y ≤ height + r`,
with image and radius comfortably inside `i32` range); beyond that band
the `u32` extent subtraction underflows (a debug-build panic). -/
theorem crop_clamped_in_range (cfg : OcrConfig) (img : Image) (x y : ℤ)
    (hwr : (img.width : ℤ) + 2 * cfg.crop_radius ≤ I32_MAX)
    (hhr : (img.height : ℤ) + 2 * cfg.crop_radius ≤ I32_MAX)
    (hx1 : -(cfg.crop_radius : ℤ) ≤ x)
    (hx2 : x ≤ (img.width : ℤ) + cfg.crop_radius)
    (hy1 : -(cfg.crop_radius : ℤ) ≤ y)
    (hy2 : y ≤ (img.height : ℤ) + cfg.crop_radius) :
    crop_around_point cfg img x y =
      some { x := (max (x - cfg.crop_radius) 0).toNat,
             y := (max (y - cfg.crop_radius) 0).toNat,
             width := (min (x + cfg.crop_radius) (img.width : ℤ)).toNat -
               (max (x - cfg.crop_radius) 0).toNat,
             height := (min (y + cfg.crop_radius) (img.height : ℤ)).toNat -
               (max (y - cfg.crop_radius) 0).toNat } ∧
    (∀ rect : CropRect, crop_around_point cfg img x y = some rect →
      rect.x + rect.width ≤ img.width ∧
      rect.y + rect.height ≤ img.height) := by
  simp only [I32_MAX] at hwr hhr
  have hrad : asI32 (cfg.crop_radius : ℤ) = (cfg.crop_radius : ℤ) :=
    asI32_eq _ (by simp only [I32_MIN]; omega)
      (by simp only [I32_MAX]; omega)
  have hwid : asI32 (img.width : ℤ) = (img.width : ℤ) :=
    asI32_eq _ (by simp only [I32_MIN]; omega)
      (by simp only [I32_MAX]; omega)
  have hhei : asI32 (img.height : ℤ) = (img.height : ℤ) :=
    asI32_eq _ (by simp only [I32_MIN]; omega)
      (by simp only [I32_MAX]; omega)
  have hxm : checkedI32 (x - (cfg.crop_radius : ℤ)) =
      some (x - (cfg.crop_radius : ℤ)) := by
    unfold checkedI32
    rw [if_pos (by simp only [I32_MIN, I32_MAX]; omega)]
  have hxp : checkedI32 (x + (cfg.crop_radius : ℤ)) =
      some (x + (cfg.crop_radius : ℤ)) := by
    unfold checkedI32
    rw [if_pos (by simp only [I32_MIN, I32_MAX]; omega)]
  have hym : checkedI32 (y - (cfg.crop_radius : ℤ)) =
      some (y - (cfg.crop_radius : ℤ)) := by
    unfold checkedI32
    rw [if_pos (by simp only [I32_MIN, I32_MAX]; omega)]
  have hyp : checkedI32 (y + (cfg.crop_radius : ℤ)) =
      some (y + (cfg.crop_radius : ℤ)) := by
    unfold checkedI32
    rw [if_pos (by simp only [I32_MIN, I32_MAX]; omega)]
  have hsx : asU32 (max (x - (cfg.crop_radius : ℤ)) 0) =
      (max (x - (cfg.crop_radius : ℤ)) 0).toNat :=
    asU32_eq _ (by omega) (by omega)
  have hsy : asU32 (max (y - (cfg.crop_radius : ℤ)) 0) =
      (max (y - (cfg.crop_radius : ℤ)) 0).toNat :=
    asU32_eq _ (by omega) (by omega)
  have hex : asU32 (min (x + (cfg.crop_radius : ℤ)) (img.width : ℤ)) =
      (min (x + (cfg.crop_radius : ℤ)) (img.width : ℤ)).toNat :=
    asU32_eq _ (by omega) (by omega)
  have hey : asU32 (min (y + (cfg.crop_radius : ℤ)) (img.height : ℤ)) =
      (min (y + (cfg.crop_radius : ℤ)) (img.height : ℤ)).toNat :=
    asU32_eq _ (by omega) (by omega)
  have hcw : checkedSubU32
      ((min (x + (cfg.crop_radius : ℤ)) (img.width : ℤ)).toNat)
      ((max (x - (cfg.crop_radius : ℤ)) 0).toNat) =
      some ((min (x + (cfg.crop_radius : ℤ)) (img.width : ℤ)).toNat -
        (max (x - (cfg.crop_radius : ℤ)) 0).toNat) := by
    unfold checkedSubU32
    rw [if_pos (by omega)]
  have hch : checkedSubU32
      ((min (y + (cfg.crop_radius : ℤ)) (img.height : ℤ)).toNat)
      ((max (y - (cfg.crop_radius : ℤ)) 0).toNat) =
      some ((min (y + (cfg.crop_radius : ℤ)) (img.height : ℤ)).toNat -
        (max (y - (cfg.crop_radius : ℤ)) 0).toNat) := by
    unfold checkedSubU32
    rw [if_pos (by omega)]
  have heq : crop_around_point cfg img x y =
      some { x := (max (x - cfg.crop_radius) 0).toNat,
             y := (max (y - cfg.crop_radius) 0).toNat,
             width := (min (x + cfg.crop_radius) (img.width : ℤ)).toNat -
               (max (x - cfg.crop_radius) 0).toNat,
             height := (min (y + cfg.crop_radius) (img.height : ℤ)).toNat -
               (max (y - cfg.crop_radius) 0).toNat } := by
    rw [crop_around_point]
    simp only [hrad, hwid, hhei, hxm, hxp, hym, hyp, hsx, hsy, hex, hey,
      hcw, hch]
    rw [crop_imm_clamp]
    simp only [Option.some.injEq, CropRect.mk.injEq]
    refine ⟨?_, ?_, ?_, ?_⟩ <;> omega
  refine ⟨heq, fun rect hrect => ?_⟩
  rw [heq] at hrect
  cases hrect
  dsimp only
  constructor <;> omega

/-- Witness for C8 (amended): an in-band click at `(350, 350)` on a
1000×800 bitmap crops to the square from `(50, 50)` of size 600×600. -/
theorem crop_clamped_in_range_witness :
    crop_around_point OcrConfig.default ⟨1000, 800⟩ 350 350 =
      some { x := 50, y := 50, width := 600, height := 600 } ∧
    (∀ rect : CropRect,
      crop_around_point OcrConfig.default ⟨1000, 800⟩ 350 350 =
        some rect →
      rect.x + rect.width ≤ 1000 ∧ rect.y + rect.height ≤ 800) :=
  crop_clamped_in_range OcrConfig.default ⟨1000, 800⟩ 350 350
    (by norm_num [I32_MAX, OcrConfig.default])
    (by norm_num [I32_MAX, OcrConfig.default])
    (by norm_num [OcrConfig.default]) (by norm_num [OcrConfig.default])
    (by norm_num [OcrConfig.default]) (by norm_num [OcrConfig.default])

end OpenScribe
